import Mathlib

/-!
Shallow embedding of the PSBE license backends.

Three variants are modelled, following the source:
* FlatFile — the JSON-file backend (license-backend.js) with activate,
  login and verify-session over an in-memory database value.
* Sqlite — the SQLite backend with users, devices and sessions tables,
  including session expiry.
* Security — the stateless security-code server (server.js).

Node's crypto.pbkdf2Sync(password, salt, 10000, 64, sha512) hex digest is
abstracted as an explicit function parameter kdf : String → String → String;
the random salts and tokens produced by crypto.randomBytes are passed in as
explicit arguments, and the current time is an explicit Nat parameter.
Persistence (file rewrite / SQL statements) is modelled by the database
value returned by each operation; I/O failures are out of scope.  Missing
request-body fields (JS falsy checks) are modelled as empty strings.
-/

namespace Js

/-- Whether the second character list starts with the first. -/
def leadsWith : List Char → List Char → Bool
  | [], _ => true
  | _ :: _, [] => false
  | a :: as, b :: bs => a == b && leadsWith as bs

/-- Whether sub occurs contiguously in the character list (JS
String.prototype.includes, spelled out structurally). -/
def hasSub (sub : List Char) : List Char → Bool
  | [] => sub.isEmpty
  | c :: rest => leadsWith sub (c :: rest) || hasSub sub rest

/-- The characters before the first occurrence of sep (the whole list when
sep does not occur): the first fragment of a JS split on sep. -/
def beforeChar (sep : Char) : List Char → List Char
  | [] => []
  | c :: rest => if c == sep then [] else c :: beforeChar sep rest

/-- The characters after the first occurrence of sep, when sep occurs. -/
def afterChar (sep : Char) : List Char → Option (List Char)
  | [] => none
  | c :: rest => if c == sep then some rest else afterChar sep rest

/-- Lexicographic strict ordering of character lists, as SQLite orders TEXT
values under the default BINARY collation (identical to code-point order on
the ASCII strings compared here). -/
def charListLt : List Char → List Char → Bool
  | [], [] => false
  | [], _ :: _ => true
  | _ :: _, [] => false
  | a :: as, b :: bs => if a < b then true else if b < a then false else charListLt as bs

/-- SQLite TEXT comparison a < b under the default BINARY collation. -/
def textLt (a b : String) : Bool := charListLt a.data b.data

end Js

namespace FlatFile

/-- hashPassword from license-backend.js: the PBKDF2 derivation applied to
the password and the per-user salt (kdf stands for crypto.pbkdf2Sync). -/
def hashPassword (kdf : String → String → String) (password salt : String) : String :=
  kdf password salt

/-- verifyPassword from license-backend.js: recompute the derivation with the
stored salt and compare with the stored hash. -/
def verifyPassword (kdf : String → String → String) (password salt hash : String) : Bool :=
  hashPassword kdf password salt == hash

/-- A record of users-database.json. -/
structure User where
  username : String
  passwordHash : String
  salt : String
  licenseCode : String
  hardwareID : String
  devices : Option (List String)
  createdAt : Nat
  lastLogin : Nat
deriving Repr, DecidableEq

/-- A record of license-database.json. -/
structure License where
  code : String
  username : String
  hardwareID : String
  activatedAt : Nat
  status : String
deriving Repr, DecidableEq

/-- The two JSON stores, as association lists keyed the way the JS objects
licenseDB.licenses and usersDB.users are keyed. -/
structure DB where
  licenses : List (String × License)
  users : List (String × User)
deriving Repr, DecidableEq

/-- VALID_LICENSE_CODES from license-backend.js. -/
def VALID_LICENSE_CODES : List String :=
  ["PSYSTUDIO-2024-FULL", "PSYSTUDIO-2024-PRO", "PSYSTUDIO-2024-TRIAL"]

/-- JS object property read, obj[k]. -/
def jsLookup {α : Type} (l : List (String × α)) (k : String) : Option α :=
  (l.find? (fun p => p.fst == k)).map (fun p => p.snd)

/-- JS object property write, obj[k] = v: overwrite an existing key in place,
otherwise append the new key. -/
def jsSet {α : Type} (l : List (String × α)) (k : String) (v : α) : List (String × α) :=
  if (l.find? (fun p => p.fst == k)).isSome then
    l.map (fun p => if p.fst == k then (k, v) else p)
  else
    l ++ [(k, v)]

/-- JS String.prototype.includes. -/
def jsIncludes (s sub : String) : Bool := Js.hasSub sub.data s.data

/-- licenseType field of the responses: trial when the code contains TRIAL. -/
def licenseType (code : String) : String :=
  if jsIncludes code "TRIAL" then "trial" else "full"

/-- Result of POST /api/activate-license (flat-file variant). -/
inductive ActRes where
  | ok (message licenseTy username : String) (activatedAt : Nat)
  | fail (status : Nat) (error : String)
deriving Repr, DecidableEq

/-- POST /api/activate-license from license-backend.js.  The salt argument is
the value of generateSalt(), now the current time. -/
def activate (kdf : String → String → String) (db : DB)
    (code username password hardwareID : String) (salt : String) (now : Nat) :
    ActRes × DB :=
  if code = "" ∨ username = "" ∨ password = "" ∨ hardwareID = "" then
    (.fail 400 "Missing required fields", db)
  else if ¬ (VALID_LICENSE_CODES.contains code = true) then
    (.fail 400 "Invalid license code", db)
  else
    match jsLookup db.licenses code with
    | some existingLicense =>
      if existingLicense.hardwareID ≠ hardwareID then
        (.fail 403 "License already activated on another device", db)
      else if existingLicense.username ≠ username then
        (.fail 403 "License already activated with different username", db)
      else
        (.ok "License re-activated" (licenseType code) existingLicense.username
          existingLicense.activatedAt, db)
    | none =>
      match jsLookup db.users username with
      | some _ => (.fail 400 "Username already taken", db)
      | none =>
        let passwordHash := hashPassword kdf password salt
        let newUser : User :=
          { username := username, passwordHash := passwordHash, salt := salt,
            licenseCode := code, hardwareID := hardwareID,
            devices := some [hardwareID], createdAt := now, lastLogin := now }
        let newLicense : License :=
          { code := code, username := username, hardwareID := hardwareID,
            activatedAt := now, status := "active" }
        (.ok "License activated successfully" (licenseType code) username now,
         { licenses := jsSet db.licenses code newLicense,
           users := jsSet db.users username newUser })

/-- Result of POST /api/login (flat-file variant).  The fail payload carries
the devices count included in the device-limit response body. -/
inductive LoginRes where
  | ok (token username licenseCode licenseTy : String) (devicesUsed : Nat)
  | fail (status : Nat) (error : String) (devices : Option Nat)
deriving Repr, DecidableEq

/-- POST /api/login from license-backend.js.  The sessionToken argument is
the value of crypto.randomBytes(32) hex. -/
def login (kdf : String → String → String) (db : DB)
    (username password hardwareID sessionToken : String) (now : Nat) :
    LoginRes × DB :=
  if username = "" ∨ password = "" ∨ hardwareID = "" then
    (.fail 400 "Missing required fields" none, db)
  else
    match jsLookup db.users username with
    | none => (.fail 401 "Invalid username or password" none, db)
    | some user =>
      if verifyPassword kdf password user.salt user.passwordHash = false then
        (.fail 401 "Invalid username or password" none, db)
      else
        match user.devices with
        | none =>
          let user1 := { user with devices := some [hardwareID], lastLogin := now }
          (.ok sessionToken user.username user.licenseCode
            (licenseType user.licenseCode) 1,
           { db with users := jsSet db.users username user1 })
        | some ds =>
          if ds.contains hardwareID then
            let user1 := { user with lastLogin := now }
            (.ok sessionToken user.username user.licenseCode
              (licenseType user.licenseCode) ds.length,
             { db with users := jsSet db.users username user1 })
          else if 3 ≤ ds.length then
            (.fail 403 "Maximum device limit reached (3 devices)" (some ds.length), db)
          else
            let user1 := { user with devices := some (ds ++ [hardwareID]), lastLogin := now }
            (.ok sessionToken user.username user.licenseCode
              (licenseType user.licenseCode) (ds.length + 1),
             { db with users := jsSet db.users username user1 })

/-- Result of POST /api/verify-session (flat-file variant). -/
inductive FVerifyRes where
  | ok (username licenseTy : String)
  | fail (status : Nat) (error : String)
deriving Repr, DecidableEq

/-- POST /api/verify-session from license-backend.js.  The handler reads
username, token and hardwareID from the body, but never consults the token:
it only checks that the user exists and, when a devices array is present,
that the presented hardwareID is in it. -/
def fVerifySession (db : DB) (username token hardwareID : String) : FVerifyRes :=
  match jsLookup db.users username with
  | none => .fail 401 "Invalid session"
  | some user =>
    match user.devices with
    | some ds =>
      if ds.contains hardwareID then
        .ok user.username (licenseType user.licenseCode)
      else
        .fail 403 "Device not authorized"
    | none => .ok user.username (licenseType user.licenseCode)

/-- The number of stored device entries of a user (0 when the array is
absent, as for records predating the devices field). -/
def devLen (u : User) : Nat :=
  match u.devices with
  | none => 0
  | some ds => ds.length

/-- The number of distinct fingerprints registered to a user. -/
def distinctDevices (u : User) : Nat := ((u.devices.getD []).dedup).length

/-- The device-quota invariant: every stored user has at most 3 entries. -/
def DeviceInv (db : DB) : Prop := ∀ p ∈ db.users, devLen p.snd ≤ 3

/-- One login request as the handler reads it. -/
structure LoginReq where
  username : String
  password : String
  hardwareID : String
  token : String
  now : Nat
deriving Repr, DecidableEq

/-- A sequence of logins applied to the database in order. -/
def runLogins (kdf : String → String → String) (db : DB) (reqs : List LoginReq) : DB :=
  reqs.foldl
    (fun d r => (login kdf d r.username r.password r.hardwareID r.token r.now).snd) db

end FlatFile

namespace Sqlite

/-- hashPassword from the SQLite variant: a fresh random salt (passed in) and
the PBKDF2 hash, serialized as salt:hash. -/
def sHashPassword (kdf : String → String → String) (password salt : String) : String :=
  salt ++ ":" ++ kdf password salt

/-- verifyPassword from the SQLite variant: destructure the stored value on
the colon into salt and hash, recompute and compare.  When the stored value
has no colon the JS hash component is undefined and the comparison with the
recomputed hex string is false. -/
def sVerifyPassword (kdf : String → String → String) (password storedHash : String) : Bool :=
  let salt := String.mk (Js.beforeChar ':' storedHash.data)
  match Js.afterChar ':' storedHash.data with
  | none => false
  | some rest => String.mk (Js.beforeChar ':' rest) == kdf password salt

/-- A row of the users table. -/
structure SUser where
  id : Nat
  username : String
  password_hash : Option String
  license_code : String
  created_at : Nat
  last_login : Option Nat
  is_activated : Nat
deriving Repr, DecidableEq

/-- A row of the devices table. -/
structure SDevice where
  id : Nat
  user_id : Nat
  hardware_id : String
  device_name : String
  first_seen : Nat
  last_seen : Nat
deriving Repr, DecidableEq

/-- A row of the sessions table.  expires_at is stored exactly as the source
stores it: the TEXT produced by Date.prototype.toISOString, of the shape
YYYY-MM-DDTHH:MM:SS.sssZ.  The other timestamps are never compared and stay
opaque Nat instants. -/
structure SSession where
  user_id : Nat
  session_token : String
  hardware_id : String
  expires_at : String
  created_at : Nat
deriving Repr, DecidableEq

/-- The SQLite database, rows in insertion order. -/
structure SDB where
  users : List SUser
  devices : List SDevice
  sessions : List SSession
deriving Repr, DecidableEq

/-- Result of POST /api/login (SQLite variant). -/
inductive SLoginRes where
  | ok (session_token : String) (expires_at : String) (username : String)
      (device_count : Nat) (is_new_device : Bool)
  | fail (status : Nat) (error : String) (device_count : Option Nat)
deriving Repr, DecidableEq

/-- POST /api/login from the SQLite variant.  SELECT with a unique key is
modelled by find? on the row list; newToken is the generated session token,
newDevId the AUTOINCREMENT id a fresh device row would get, and expiresIso
is the ISO TEXT new Date(Date.now() + 30 days).toISOString() that the source
stores and returns (the date-formatting library call is abstracted as an
input, like the random tokens).  A NULL or empty password_hash fails exactly
like a wrong password (the JS falsy check). -/
def sLogin (kdf : String → String → String) (db : SDB)
    (username password hardware_id newToken expiresIso : String)
    (newDevId : Nat) (now : Nat) :
    SLoginRes × SDB :=
  if username = "" ∨ password = "" ∨ hardware_id = "" then
    (.fail 400 "Username, password, and hardware ID required" none, db)
  else
    match db.users.find? (fun u => u.username == username) with
    | none => (.fail 401 "Invalid credentials" none, db)
    | some user =>
      match user.password_hash with
      | none => (.fail 401 "Invalid credentials" none, db)
      | some ph =>
        if ph = "" ∨ sVerifyPassword kdf password ph = false then
          (.fail 401 "Invalid credentials" none, db)
        else if user.is_activated = 0 then
          (.fail 401 "License not activated. Please activate first." none, db)
        else
          let devices := db.devices.filter (fun d => d.user_id == user.id)
          match devices.find? (fun d => d.hardware_id == hardware_id) with
          | none =>
            if 3 ≤ devices.length then
              (.fail 403
                "Maximum device limit reached (3 devices). Please deactivate a device first."
                (some devices.length), db)
            else
              let newDev : SDevice :=
                { id := newDevId, user_id := user.id, hardware_id := hardware_id,
                  device_name := "Device " ++ toString (devices.length + 1),
                  first_seen := now, last_seen := now }
              let newSess : SSession :=
                { user_id := user.id, session_token := newToken,
                  hardware_id := hardware_id, expires_at := expiresIso,
                  created_at := now }
              let users1 := db.users.map (fun u =>
                if u.id == user.id then { u with last_login := some now } else u)
              (.ok newToken expiresIso user.username (devices.length + 1) true,
               { users := users1, devices := db.devices ++ [newDev],
                 sessions := db.sessions ++ [newSess] })
          | some existingDevice =>
            let devices1 := db.devices.map (fun d =>
              if d.id == existingDevice.id then { d with last_seen := now } else d)
            let newSess : SSession :=
              { user_id := user.id, session_token := newToken,
                hardware_id := hardware_id, expires_at := expiresIso,
                created_at := now }
            let users1 := db.users.map (fun u =>
              if u.id == user.id then { u with last_login := some now } else u)
            (.ok newToken expiresIso user.username devices.length false,
             { users := users1, devices := devices1,
               sessions := db.sessions ++ [newSess] })

/-- Result of POST /api/activate-license (SQLite variant). -/
inductive SActRes where
  | ok (session_token expires_at username message : String)
  | fail (status : Nat) (error : String)
deriving Repr, DecidableEq

/-- POST /api/activate-license from the SQLite variant.  salt is the random
salt hashPassword would draw, newToken the generated session token, newDevId
the AUTOINCREMENT id for the first device row, expiresIso the stored ISO
expiry TEXT as in sLogin. -/
def sActivate (kdf : String → String → String) (db : SDB)
    (license_code hardware_id password : String) (salt newToken expiresIso : String)
    (newDevId : Nat) (now : Nat) : SActRes × SDB :=
  if license_code = "" ∨ hardware_id = "" ∨ password = "" then
    (.fail 400 "License code, hardware ID, and password required", db)
  else if password.length < 6 then
    (.fail 400 "Password must be at least 6 characters", db)
  else
    match db.users.find? (fun u => u.license_code == license_code) with
    | none => (.fail 404 "Invalid license code", db)
    | some user =>
      if user.is_activated = 1 then
        (.fail 400 "License already activated. Please use login instead.", db)
      else
        let ph := sHashPassword kdf password salt
        let users1 := db.users.map (fun u =>
          if u.id == user.id then { u with password_hash := some ph, is_activated := 1 } else u)
        let newDev : SDevice :=
          { id := newDevId, user_id := user.id, hardware_id := hardware_id,
            device_name := "Device 1", first_seen := now, last_seen := now }
        let newSess : SSession :=
          { user_id := user.id, session_token := newToken,
            hardware_id := hardware_id, expires_at := expiresIso,
            created_at := now }
        (.ok newToken expiresIso user.username "License activated successfully",
         { users := users1, devices := db.devices ++ [newDev],
           sessions := db.sessions ++ [newSess] })

/-- Result of POST /api/verify-session (SQLite variant). -/
inductive SVerifyRes where
  | ok (username license_code expires_at : String)
  | fail (status : Nat) (error : String)
deriving Repr, DecidableEq

/-- POST /api/verify-session from the SQLite variant.  The SQL query selects
the session row matching the token and hardware id whose stored expires_at
TEXT is strictly greater than the TEXT datetime('now') — a lexicographic
BINARY-collation comparison, since the column holds the ISO string with a T
separator while datetime('now') yields YYYY-MM-DD HH:MM:SS — inner-joined
with its users row.  nowStr is the value of datetime('now'). -/
def sVerifySession (db : SDB) (session_token hardware_id : String) (nowStr : String) :
    SVerifyRes :=
  if session_token = "" ∨ hardware_id = "" then
    .fail 400 "Session token and hardware ID required"
  else
    match (db.sessions.find? (fun s =>
        s.session_token == session_token && s.hardware_id == hardware_id &&
          Js.textLt nowStr s.expires_at)).bind
      (fun s => (db.users.find? (fun u => u.id == s.user_id)).map (fun u => (s, u))) with
    | none => .fail 401 "Invalid or expired session"
    | some (s, u) => .ok u.username u.license_code s.expires_at

/-- POST /api/logout from the SQLite variant: delete any session rows with
the given token; a falsy token leaves the table untouched. -/
def sLogout (db : SDB) (session_token : String) : SDB :=
  if session_token = "" then db
  else { db with sessions := db.sessions.filter (fun s => ¬ s.session_token == session_token) }

/-- The device rows belonging to one account, as SELECTed by the login
handler. -/
def userDevices (db : SDB) (uid : Nat) : List SDevice :=
  db.devices.filter (fun d => d.user_id == uid)

/-- The number of device rows of one account. -/
def sDevCount (db : SDB) (uid : Nat) : Nat := (userDevices db uid).length

/-- The number of distinct fingerprints registered to one account. -/
def sDistinctDevices (db : SDB) (uid : Nat) : Nat :=
  (((userDevices db uid).map (fun d => d.hardware_id)).dedup).length

/-- The device-quota invariant: every stored account has at most 3 device
rows. -/
def SDeviceInv (db : SDB) : Prop := ∀ u ∈ db.users, sDevCount db u.id ≤ 3

/-- One login request to the SQLite variant, together with the generated
token, expiry string and fresh device id it would consume. -/
structure SLoginReq where
  username : String
  password : String
  hardware_id : String
  token : String
  expiresIso : String
  devId : Nat
  now : Nat
deriving Repr, DecidableEq

/-- A sequence of logins applied to the SQLite database in order. -/
def sRunLogins (kdf : String → String → String) (db : SDB)
    (reqs : List SLoginReq) : SDB :=
  reqs.foldl
    (fun d r =>
      (sLogin kdf d r.username r.password r.hardware_id r.token r.expiresIso
        r.devId r.now).snd) db

end Sqlite

namespace Security

/-- validSecurityCodes from server.js. -/
def validSecurityCodes : List String :=
  ["020PSY969666POWER900",
   "030PSY969666POWER800",
   "040PSY969666POWER700",
   "050PSY969666POWER600",
   "060PSY969666POWER500",
   "070PSY969666POWER400",
   "080PSY969666POWER300",
   "090PSY969666POWER200",
   "100PSY969666POWER001",
   "200PSY969666POWER002",
   "0a2b0c9x6y9z61626392010",
   "0a2b0c9x6y9z62626392010",
   "0a2b0c9x6z9z62696392010",
   "0a2b0c9x6y9w62626392810",
   "0a2f0c9x6y9z62626390010",
   "0a2bhc9x6y9z62w26392010",
   "0a2x0c9xwy9z6262y392010",
   "⹿⺀⺁⺂⺃⺄⺅⺆⺇⺈⺉⺊⺋⺌⺍⺎⺏⺐⺑⺒⺓⺔⺕⺖⺗⺘⺙⺚⺛⭖⭗⭘⭙⭚⭛⭜⭝⭞⭟⭠⭡⭢⭣⭤⭥⭦⭧⭨⭩⭪⭫⭬⭭⭮⭯⭰⭱⭲⭳⭴⭵⭶⭷⭸⭹⭺⭻⭼⭽⭾⭿⮀⮁⮂⮃⮄⮅⮆⮇⮈⮉⮊⮋⮌⮍⮎⮏⮐⮑⮒⮓⮔⮕⮖⮗⮘⮙⮚⮛⮜⮝⮞⮟⮠⮡⮢⮣⮤⮥⮦⮧⮨⮩⮪⮫⮬⭭⭮⭯⭰⭱⭲⭳⭴⭵⭶⭷⭸⭹⭺⭻⭼⭽⭾⭿⮀⮁⮂⮃⮄⮅⮆⮇⮈⮉⮊⮋⮌⮍⮎⮏⮐⮑⮒⮓⮔⮕⮖⮗⮘⮙⮚⮛⮜⮝⮞⮟⮠⮡⮢⮣⮤⮥⮦⮧⮨⮩⮪⮫⮬⮭⮮⮯⮰⮱⮲⮳⮴⮵⮶⮷⮸⮹⮺⮻⮼⮽⮾⮿ⰀⰁⰂⰃⰄⰅⰆⰇⰈⰉⰊⰋⰌⰍⰎⰏⰐⰑⰒⰓⰔⰕⰖⰗⰘⰙⰚⰛⰜⰝⰞⰟⰠⰡⰢⰣⰤⰥⰦⰧⰨⰩⰪⰫⰬⰭⰮⰰⰱⰲⰳⰴⰵⰶⰷⰸⰹⰺⰻⰼⰽⰾⰿⱀⱁⱂⱃⱄⱅⱆⱇⱈⱉⱊⱋⱌⱍⱎⱏⱐⱑⱒⱓⱔⱕⱖⱗⱘⱙⱚⱛⱜⱝⱞⱟⱠⱡⱢⱣⱤⱥⱦⱧⱨⱩⱪⱫⱬⱭⱮⱯⱰⱱⱲⱳⱴⱵⱶⱷⱸⱹⱺⱻⱼⱽⱾⱿⲀⲁⲂⲃⲄⲅⲆⲇⲈⲉⲊⲋⲌⲍⲎⲏⲐⲑⲒⲓⲔⲕ",
   "⯿ⰀⰁⰂⰃⰄⰅⰆⰇⰈⰉⰊⰋⰌ⭖⭗⭘⭙⭚⭛⭜⭝⭞⭟⭠⭡⭢⭣⭤⭥⭦⭧⭨⭩⭪⭫⭬⭭⭮⭯⭰⭱⭲⭳⭴⭵⭶⭷⭸⭹⭺⭻⭼⭽⭾⭿⮀⮁⮂⮃⮄⮅⮆⮇⮈⮉⮊⮋⮌⮍⮎⮏⮐⮑⮒⮓⮔⮕⮖⮗⮘⮙⮚⮛⮜⮝⮞⮟⮠⮡⮢⮣⮤⮥⮦⮧⮨⮩⮪⮫⮬⮭⮮⮯⮰⮱⮲⮳⮴⮵⮶⮷⮸⮹⮺⮻⮼⮽⮾⮿⯀⯁⯂⯃⯄⯅⯆⯇⯈⯉⯊⯋⯌⯍⯎⯏⯐⯑⯒⯓⯔⯕⯖⯗⯘⯙⯚⯛⯜⯝⯞⯟⯠⯡⯢⯣⯤⯥⯦⯧⯨⯩⯪⯫⯬⯭⯮⯯⯰⯱⯲⯳⯴⯵⯶⯷⯸⯹⯺⯻⯼⯽⯾⯿ⰀⰁⰂⰃⰄⰅⰆⰇⰈⰉⰊⰋⰌⰍⰎⰏⰐⰑⰒⰓⰔⰕⰖⰗⰘⰙⰚⰛⰜⰝⰞⰟⰠⰡⰢⰣⰤⰥⰦⰧⰨⰩⰪⰫⰬⰭⰮⰰⰱⰲⰳⰴⰵⰶⰷⰸⰹⰺⰻⰼⰽⰾⰿⱀⱁⱂⱃⱄⱅⱆⱇⱈⱉⱊⱋⱌⱍⱎⱏⱐⱑⱒⱓⱔⱕⱖⱗⱘⱙⱚⱛⱜⱝⱞⱟⱠⱡⱢⱣⱤⱥⱦⱧⱨⱩⱪⱫⱬⱭⱮⱯⱰⱱⱲⱳⱴⱵⱶⱷⱸⱹⱺⱻⱼⱽⱾⱿⲀⲁⲂⲃⲄⲅⲆⲇⲈⲉⲊⲋⲌⲍⲎⲏⲐⲑⲒⲓⲔⲕ",
   "⺃⺄⺅⺆⺇⺈⺉⺊⺋⺌⺍⺎⺏⺐⺑⺒⺓⺔⺕⺖⺗⺘⺙⺚⺛⭖⭗⭘⭙⭚⭛⭜⭝⭞⭟⭠⭡⭢⭣⭤⭥⭦⭧⭨⭩⭪⭫⭬⭭⭮⭯⭰⭱⭲⭳⭴⭵⭶⭷⭸⭹⭺⭻⭼⭽⭾⭿⮀⮁⮂⮃⮄⮅⮆⮇⮈⮉⮊⮋⮌⮍⮎⮏⮐⮑⮒⮓⮔⮕⮖⮗⮘⮙⮚⮛⮜⮝⮞⮟⮠⮡⮢⮣⮤⮥⮦⮧⮨⮩⮪⮫⮬⮭⮮⮯⮰⮱⮲⮳⮴⮵⮶⭷⭸⭹⭺⭻⭼⭽⭾⭿⮀⮁⮂⮃⮄⮅⮆⮇⮈⮉⮊⮋⮌⮍⮎⮏⮐⮑⮒⮓⮔⮕⮖⮗⮘⮙⮚⮛⮜⮝⮞⮟⮠⮡⮢⮣⮤⮥⮦⮧⮨⮩⮪⮫⮬⮭⮮⮯⮰⮱⮲⮳⮴⮵⮶⮷⮸⮹⮺⮻⮼⮽⮾⮿ⰀⰁⰂⰃⰄⰅⰆⰇⰈⰉⰊⰋⰌⰍⰎⰏⰐⰑⰒⰓⰔⰕⰖⰗⰘⰙⰚⰛⰜⰝⰞⰟⰠⰡⰢⰣⰤⰥⰦⰧⰨⰩⰪⰫⰬⰭⰮⰰⰱⰲⰳⰴⰵⰶⰷⰸⰹⰺⰻⰼⰽⰾⰿⱀⱁⱂⱃⱄⱅⱆⱇⱈⱉⱊⱋⱌⱍⱎⱏⱐⱑⱒⱓⱔⱕⱖⱗⱘⱙⱚⱛⱜⱝⱞⱟⱠⱡⱢⱣⱤⱥⱦⱧⱨⱩⱪⱫⱬⱭⱮⱯⱰⱱⱲⱳⱴⱵⱶⱷⱸⱹⱺⱻⱼⱽⱾⱿⲀⲁⲂⲃⲄⲅⲆⲇⲈⲉⲊⲋⲌⲍⲎⲏⲐⲑⲒⲓⲔⲕ",
   "⮷⮸⮹⮺⮻⮼⮽⮾⮿⯀⯁⯂⯃⯄⯅⯆⯇⯈⯉⯊⯋⯌⯍⯎⯏⯐⯑⯒⯓⯔⯕⯖⯗⯘⯙⯚⯛⯜⯝⯞⯟⯠⯡⯢⯣⯤⯥⯦⯧⯨⯩⯪⯫⯬⯭⯮⯯⯰⯱⯲⯳⯴⯵⯶⯷⯸⯹⯺⯻⯼⯽⯾⯿ⰀⰁⰂⰃⰄⰅⰆⰇⰈⰉⰊⰋⰌⰍⰎⰏⰐⰑⰒⰓⰔⰕⰖⰗⰘⰙⰚⰛⰜⰝⰞⰟⰠⰡⰢⰣⰤⰥⰦⰧⰨⰩⰪⰫⰬⰭⰮⰰⰱⰲⰳⰴⰵⰶⰷⰸⰹⰺⰻⰼⰽⰾⰿⱀⱁⱂⱃⱄⱅⱆⱇⱈⱉⱊⱋⱌⱍⱎⱏⱐⱑⱒⱓⱔⱕⱖⱗⱘⱙⱚⱛⱜⱝⱞⱟⱠⱡⱢⱣⱤⱥⱦⱧⱨⱩⱪⱫⱬⱭⱮⱯⱰⱱⱲⱳⱴⱵⱶⱷⱸⱹⱺⱻⱼⱽⱾⱿⲀⲁⲂⲃⲄⲅⲆⲇⲈⲉⲊⲋⲌⲍⲎⲏⲐⲑⲒⲓⲔⲕ⹿⺀⺁⺂⺃⺄⺅⺆⺇⺈⺉⺊⺋⺌⺍⺎⺏⺐⺑⺒⺓⺔⺕⺖⺗⺘⺙⺚⺛⭖⭗⭘⭙⭚⭛⭜⭝⭞⭟⭠⭡⭢⭣⭤⭥⭦⭧⭨⭩⭪⭫⭬⭭⭮⭯⭰⭱⭲⭳⭴⭵⭶"]

/-- A request body as the security server reads it: the fields destructured
by the validate handler (fingerprint and timestamp are read but unused). -/
structure SecurityRequest where
  fingerprint : String
  timestamp : String
  code : String
deriving Repr, DecidableEq

/-- Response of POST /validate: a 200 with the membership of the code. -/
structure ValidateRes where
  valid : Bool
deriving Repr, DecidableEq

/-- Response of POST /authenticate. -/
inductive AuthRes where
  | ok (message : String)
  | fail (status : Nat) (error : String)
deriving Repr, DecidableEq

/-- POST /validate from server.js: look the code up in the static list.  The
handler touches no store; it is a function of the request body alone. -/
def validate (r : SecurityRequest) : ValidateRes :=
  { valid := validSecurityCodes.contains r.code }

/-- POST /authenticate from server.js: accept exactly the codes of the static
list, again reading no mutable state. -/
def authenticate (r : SecurityRequest) : AuthRes :=
  if validSecurityCodes.contains r.code then
    .ok "Authentication successful"
  else
    .fail 401 "Authentication failed: Invalid security code"

end Security

/-!
Concrete fixtures used by witnesses and counterexamples.  kdfX is a stand-in
for the PBKDF2 call so the operations can be evaluated on closed inputs.
-/

/-- A concrete key-derivation function for closed evaluations. -/
def kdfX : String → String → String := fun p s => s ++ "|" ++ p

/-- A flat-file user activated from HW1 that has also logged in from HW2. -/
def aliceFF : FlatFile.User :=
  { username := "alice", passwordHash := kdfX "secret1" "s0", salt := "s0",
    licenseCode := "PSYSTUDIO-2024-FULL", hardwareID := "HW1",
    devices := some ["HW1", "HW2"], createdAt := 0, lastLogin := 0 }

/-- The activated flat-file license record of aliceFF. -/
def licFF : FlatFile.License :=
  { code := "PSYSTUDIO-2024-FULL", username := "alice", hardwareID := "HW1",
    activatedAt := 0, status := "active" }

/-- A flat-file database holding aliceFF and her activated license. -/
def dbFF : FlatFile.DB :=
  { licenses := [("PSYSTUDIO-2024-FULL", licFF)],
    users := [("alice", aliceFF)] }

/-- The flat-file database with alice already at the three-device quota. -/
def dbFF3 : FlatFile.DB :=
  { licenses := dbFF.licenses,
    users := [("alice", { aliceFF with devices := some ["HW1", "HW2", "HW3"] })] }

/-- The state of aliceFF after a successful third-device login at time 1. -/
def aliceFF3 : FlatFile.User :=
  { aliceFF with devices := some ["HW1", "HW2", "HW3"], lastLogin := 1 }

/-- Two login requests: one registering a third device, one rejected at the
quota. -/
def reqsFF : List FlatFile.LoginReq :=
  [{ username := "alice", password := "secret1", hardwareID := "HW3",
     token := "t1", now := 1 },
   { username := "alice", password := "secret1", hardwareID := "HW4",
     token := "t2", now := 2 }]

/-- A SQLite user already activated. -/
def aliceSq : Sqlite.SUser :=
  { id := 1, username := "alice",
    password_hash := some (Sqlite.sHashPassword kdfX "secret1" "s0"),
    license_code := "LC-0001", created_at := 0, last_login := none,
    is_activated := 1 }

/-- The session issued to aliceSq from hardware HW1, expiring at 10:00 UTC
on 2025-03-10 (stored, as in the source, as the ISO TEXT). -/
def sessSq : Sqlite.SSession :=
  { user_id := 1, session_token := "tok1", hardware_id := "HW1",
    expires_at := "2025-03-10T10:00:00.000Z", created_at := 0 }

/-- A SQLite database with the activated user, her device and one session. -/
def dbSq : Sqlite.SDB :=
  { users := [aliceSq],
    devices := [{ id := 1, user_id := 1, hardware_id := "HW1",
                  device_name := "Device 1", first_seen := 0, last_seen := 0 }],
    sessions := [sessSq] }

/-- The SQLite database with alice already at the three-device quota. -/
def dbSq3 : Sqlite.SDB :=
  { dbSq with devices :=
      [{ id := 1, user_id := 1, hardware_id := "HW1",
         device_name := "Device 1", first_seen := 0, last_seen := 0 },
       { id := 2, user_id := 1, hardware_id := "HW2",
         device_name := "Device 2", first_seen := 0, last_seen := 0 },
       { id := 3, user_id := 1, hardware_id := "HW3",
         device_name := "Device 3", first_seen := 0, last_seen := 0 }] }

/-- Two SQLite login requests: one registering a second device, one from a
device already registered. -/
def reqsSq : List Sqlite.SLoginReq :=
  [{ username := "alice", password := "secret1", hardware_id := "HW2",
     token := "t1", expiresIso := "2025-04-09T00:00:01.000Z", devId := 2, now := 50 },
   { username := "alice", password := "secret1", hardware_id := "HW1",
     token := "t2", expiresIso := "2025-04-09T00:00:02.000Z", devId := 3, now := 60 }]

/-- In the SQLite variant, an activation request for a license whose user row
is already activated is rejected with the AlreadyActivated error and the
database is returned unchanged, regardless of the fingerprint presented. -/
theorem sqlite_reactivation_rejected :
    ∀ kdf : String → String → String, ∀ db : Sqlite.SDB,
    ∀ license_code hardware_id password salt tok expIso : String, ∀ devId now : Nat,
    ∀ user : Sqlite.SUser,
      license_code ≠ "" → hardware_id ≠ "" → password ≠ "" →
      ¬ password.length < 6 →
      db.users.find? (fun u => u.license_code == license_code) = some user →
      user.is_activated = 1 →
      Sqlite.sActivate kdf db license_code hardware_id password salt tok expIso devId now =
        (.fail 400 "License already activated. Please use login instead.", db) := by
  intro kdf db license_code hardware_id password salt tok expIso devId now user
    h1 h2 h3 h4 h5 h6
  simp [Sqlite.sActivate, h1, h2, h3, h4, h5, h6]

/-- C2 (amended): in the flat-file variant, re-activating an activated
license with the recorded fingerprint and username succeeds and returns the
database unchanged (credential, device set and activation record are all
untouched); the SQLite variant instead rejects every second activation of
an activated license with an AlreadyActivated error, also without mutation
— it never succeeds there. -/
theorem claim_c2_reactivation :
    (∀ kdf : String → String → String, ∀ db : FlatFile.DB,
      ∀ code username password hardwareID salt : String, ∀ now : Nat,
      ∀ lic : FlatFile.License,
      code ≠ "" → username ≠ "" → password ≠ "" → hardwareID ≠ "" →
      FlatFile.VALID_LICENSE_CODES.contains code = true →
      FlatFile.jsLookup db.licenses code = some lic →
      lic.hardwareID = hardwareID → lic.username = username →
      FlatFile.activate kdf db code username password hardwareID salt now =
        (.ok "License re-activated" (FlatFile.licenseType code)
          lic.username lic.activatedAt, db)) ∧
    (∀ kdf : String → String → String, ∀ db : Sqlite.SDB,
      ∀ license_code hardware_id password salt tok expIso : String, ∀ devId now : Nat,
      ∀ user : Sqlite.SUser,
      license_code ≠ "" → hardware_id ≠ "" → password ≠ "" →
      ¬ password.length < 6 →
      db.users.find? (fun u => u.license_code == license_code) = some user →
      user.is_activated = 1 →
      Sqlite.sActivate kdf db license_code hardware_id password salt tok expIso devId now =
        (.fail 400 "License already activated. Please use login instead.", db)) := by
  constructor
  · intro kdf db code username password hardwareID salt now lic
      h1 h2 h3 h4 h5 h6 h7 h8
    simp [FlatFile.activate, h1, h2, h3, h4, h5, h6, h7, h8,
      List.mem_of_elem_eq_true h5]
  · exact sqlite_reactivation_rejected

/-- Witness for C2: re-activation of alice's flat-file license from HW1
returns success and the very same database; the SQLite variant rejects the
identical retry. -/
theorem claim_c2_witness :
    FlatFile.activate kdfX dbFF "PSYSTUDIO-2024-FULL" "alice" "secret1" "HW1" "s9" 9 =
      (.ok "License re-activated" "full" "alice" 0, dbFF) ∧
    Sqlite.sActivate kdfX dbSq "LC-0001" "HW1" "secret1" "s1" "tok2" "e1" 2 500 =
      (.fail 400 "License already activated. Please use login instead.", dbSq) :=
  ⟨(claim_c2_reactivation.1 kdfX dbFF "PSYSTUDIO-2024-FULL" "alice" "secret1" "HW1"
      "s9" 9 licFF (by decide) (by decide) (by decide) (by decide) (by decide)
      (by decide) (by decide) (by decide)).trans (by decide),
   claim_c2_reactivation.2 kdfX dbSq "LC-0001" "HW1" "secret1" "s1" "tok2" "e1" 2 500
     aliceSq (by decide) (by decide) (by decide) (by decide) (by decide) (by decide)⟩

/-- Counterexample to C2 as stated: in the SQLite variant, retrying the
activation of the already-activated license LC-0001 with the very
fingerprint HW1 it is bound to does not succeed: it fails with the
AlreadyActivated error. -/
theorem claim_c2_counterexample :
    Sqlite.sActivate kdfX dbSq "LC-0001" "HW1" "secret1" "s1" "tok9" "e9" 3 600 =
      (.fail 400 "License already activated. Please use login instead.", dbSq) := by
  decide

/-- C3: activating an already-activated license with a different fingerprint
or a different username always fails and leaves the database unchanged: the
flat-file variant answers the two AlreadyActivated-class 403 errors, and
the SQLite variant rejects every re-activation outright. -/
theorem claim_c3_mismatched_activation :
    (∀ kdf : String → String → String, ∀ db : FlatFile.DB,
      ∀ code username password hardwareID salt : String, ∀ now : Nat,
      ∀ lic : FlatFile.License,
      code ≠ "" → username ≠ "" → password ≠ "" → hardwareID ≠ "" →
      FlatFile.VALID_LICENSE_CODES.contains code = true →
      FlatFile.jsLookup db.licenses code = some lic →
      lic.hardwareID ≠ hardwareID →
      FlatFile.activate kdf db code username password hardwareID salt now =
        (.fail 403 "License already activated on another device", db)) ∧
    (∀ kdf : String → String → String, ∀ db : FlatFile.DB,
      ∀ code username password hardwareID salt : String, ∀ now : Nat,
      ∀ lic : FlatFile.License,
      code ≠ "" → username ≠ "" → password ≠ "" → hardwareID ≠ "" →
      FlatFile.VALID_LICENSE_CODES.contains code = true →
      FlatFile.jsLookup db.licenses code = some lic →
      lic.hardwareID = hardwareID → lic.username ≠ username →
      FlatFile.activate kdf db code username password hardwareID salt now =
        (.fail 403 "License already activated with different username", db)) ∧
    (∀ kdf : String → String → String, ∀ db : Sqlite.SDB,
      ∀ license_code hardware_id password salt tok expIso : String, ∀ devId now : Nat,
      ∀ user : Sqlite.SUser,
      license_code ≠ "" → hardware_id ≠ "" → password ≠ "" →
      ¬ password.length < 6 →
      db.users.find? (fun u => u.license_code == license_code) = some user →
      user.is_activated = 1 →
      Sqlite.sActivate kdf db license_code hardware_id password salt tok expIso devId now =
        (.fail 400 "License already activated. Please use login instead.", db)) := by
  refine ⟨?_, ?_, sqlite_reactivation_rejected⟩
  · intro kdf db code username password hardwareID salt now lic
      h1 h2 h3 h4 h5 h6 h7
    simp [FlatFile.activate, h1, h2, h3, h4, h5, h6, h7,
      List.mem_of_elem_eq_true h5]
  · intro kdf db code username password hardwareID salt now lic
      h1 h2 h3 h4 h5 h6 h7 h8
    simp [FlatFile.activate, h1, h2, h3, h4, h5, h6, h7, h8,
      List.mem_of_elem_eq_true h5]

/-- Witness for C3: activating alice's flat-file license from an unknown
machine, or from HW1 under another name, fails without mutation; the SQLite
variant rejects a re-activation attempt from a different machine too. -/
theorem claim_c3_witness :
    FlatFile.activate kdfX dbFF "PSYSTUDIO-2024-FULL" "alice" "secret1" "HWX" "s9" 9 =
      (.fail 403 "License already activated on another device", dbFF) ∧
    FlatFile.activate kdfX dbFF "PSYSTUDIO-2024-FULL" "bob" "secret1" "HW1" "s9" 9 =
      (.fail 403 "License already activated with different username", dbFF) ∧
    Sqlite.sActivate kdfX dbSq "LC-0001" "HWX" "secret1" "s1" "tok2" "e1" 2 500 =
      (.fail 400 "License already activated. Please use login instead.", dbSq) :=
  ⟨claim_c3_mismatched_activation.1 kdfX dbFF "PSYSTUDIO-2024-FULL" "alice" "secret1"
     "HWX" "s9" 9 licFF (by decide) (by decide) (by decide) (by decide) (by decide)
     (by decide) (by decide),
   claim_c3_mismatched_activation.2.1 kdfX dbFF "PSYSTUDIO-2024-FULL" "bob" "secret1"
     "HW1" "s9" 9 licFF (by decide) (by decide) (by decide) (by decide) (by decide)
     (by decide) (by decide) (by decide),
   claim_c3_mismatched_activation.2.2 kdfX dbSq "LC-0001" "HWX" "secret1" "s1" "tok2"
     "e1" 2 500 aliceSq (by decide) (by decide) (by decide) (by decide) (by decide)
     (by decide)⟩

/-- C7 (amended): the SQLite variant rejects an activation whose password
is shorter than 6 characters with the WeakPassword error, before touching
any state: the database is returned unchanged. -/
theorem claim_c7_weak_password :
    ∀ kdf : String → String → String, ∀ db : Sqlite.SDB,
    ∀ license_code hardware_id password salt tok expIso : String, ∀ devId now : Nat,
      license_code ≠ "" → hardware_id ≠ "" → password ≠ "" →
      password.length < 6 →
      Sqlite.sActivate kdf db license_code hardware_id password salt tok expIso devId now =
        (.fail 400 "Password must be at least 6 characters", db) := by
  intro kdf db license_code hardware_id password salt tok expIso devId now h1 h2 h3 h4
  simp [Sqlite.sActivate, h1, h2, h3, h4]

/-- Witness for C7: a 3-character password is rejected by the SQLite
activation with no state change. -/
theorem claim_c7_witness :
    Sqlite.sActivate kdfX dbSq "LC-0001" "HW1" "abc" "s1" "tok2" "e1" 2 500 =
      (.fail 400 "Password must be at least 6 characters", dbSq) :=
  claim_c7_weak_password kdfX dbSq "LC-0001" "HW1" "abc" "s1" "tok2" "e1" 2 500
    (by decide) (by decide) (by decide) (by decide)

/-- Counterexample to C7 as stated: the flat-file activation has no minimum
password length check, so activating a fresh license with the 3-character
password abc succeeds and mutates the stores. -/
theorem claim_c7_counterexample :
    (FlatFile.activate kdfX { licenses := [], users := [] } "PSYSTUDIO-2024-PRO"
      "bob" "abc" "HW9" "s2" 3).fst =
      .ok "License activated successfully" "full" "bob" 3 ∧
    (FlatFile.activate kdfX { licenses := [], users := [] } "PSYSTUDIO-2024-PRO"
      "bob" "abc" "HW9" "s2" 3).snd ≠ { licenses := [], users := [] } := by
  decide

/-- A find over a list whose distinguished element satisfies the predicate,
when no other element may satisfy it, returns that element. -/
theorem find_eq_of_unique {α : Type} (p : α → Bool) (l : List α) (a : α)
    (ha : a ∈ l) (hpa : p a = true) (huniq : ∀ b ∈ l, p b = true → b = a) :
    l.find? p = some a := by
  induction l with
  | nil => cases ha
  | cons x xs ih =>
    by_cases hx : p x = true
    · rw [List.find?_cons_of_pos _ hx]
      exact congrArg some (huniq x (List.mem_cons_self x xs) hx)
    · rw [List.find?_cons_of_neg _ hx]
      have hax : a ∈ xs := by
        rcases List.mem_cons.mp ha with h | h
        · exact absurd (h ▸ hpa) hx
        · exact h
      exact ih hax (fun b hb hpb => huniq b (List.mem_cons_of_mem x hb) hpb)

/-- Strict lexicographic comparison is decided at the first differing
character after a common prefix. -/
theorem charListLt_append (l : List Char) (a b : Char) (as bs : List Char)
    (h : a < b) : Js.charListLt (l ++ a :: as) (l ++ b :: bs) = true := by
  induction l with
  | nil => simp [Js.charListLt, h]
  | cons c rest ih => simp [Js.charListLt, ih]

/-- The stored ISO expiry TEXT of a session compares greater than
datetime('now') throughout the whole expiry UTC day: the two formats agree
on the date prefix and then put 'T' (the ISO separator) against ' ' (the
datetime('now') separator), and ' ' < 'T' in the BINARY collation —
whatever the times of day on either side. -/
theorem textLt_day_quirk (day restNow restIso : String) :
    Js.textLt (day ++ " " ++ restNow) (day ++ "T" ++ restIso) = true := by
  unfold Js.textLt
  rw [String.data_append, String.data_append, String.data_append,
    String.data_append]
  have hsp : (" " : String).data = [' '] := rfl
  have hT : ("T" : String).data = ['T'] := rfl
  rw [hsp, hT, List.append_assoc, List.append_assoc, List.singleton_append,
    List.singleton_append]
  exact charListLt_append day.data ' ' 'T' _ _ (by decide)

/-- C4 (amended): the SQLite verify-session rejects a token once the stored
expiry TEXT of every session carrying it no longer tests greater than
datetime('now') — in particular from the UTC day after expiry onward, with
no sweep needed; but within the expiry UTC day the ISO 'T' beats the
datetime('now') space in the BINARY TEXT comparison, so the session still
verifies successfully even strictly after its expiry instant. -/
theorem claim_c4_session_expiry :
    (∀ db : Sqlite.SDB, ∀ session_token hardware_id nowStr : String,
      session_token ≠ "" → hardware_id ≠ "" →
      (∀ s ∈ db.sessions, s.session_token = session_token →
        Js.textLt nowStr s.expires_at = false) →
      Sqlite.sVerifySession db session_token hardware_id nowStr =
        .fail 401 "Invalid or expired session") ∧
    (∀ db : Sqlite.SDB, ∀ session_token : String,
      ∀ s : Sqlite.SSession, ∀ u : Sqlite.SUser,
      ∀ day restNow restIso : String,
      session_token ≠ "" → s.hardware_id ≠ "" →
      s ∈ db.sessions → s.session_token = session_token →
      (∀ s1 ∈ db.sessions, s1.session_token = session_token → s1 = s) →
      s.expires_at = day ++ "T" ++ restIso →
      u ∈ db.users → u.id = s.user_id →
      (∀ u1 ∈ db.users, u1.id = s.user_id → u1 = u) →
      Sqlite.sVerifySession db session_token s.hardware_id
          (day ++ " " ++ restNow) =
        .ok u.username u.license_code s.expires_at) := by
  constructor
  · intro db session_token hardware_id nowStr ht hh hexp
    have hnone : db.sessions.find? (fun s =>
        s.session_token == session_token && s.hardware_id == hardware_id &&
          Js.textLt nowStr s.expires_at) = none := by
      rw [List.find?_eq_none]
      intro s hs hcontra
      simp only [Bool.and_eq_true, beq_iff_eq] at hcontra
      obtain ⟨⟨htok, hhw⟩, hlt⟩ := hcontra
      rw [hexp s hs htok] at hlt
      simp at hlt
    simp [Sqlite.sVerifySession, ht, hh, hnone]
  · intro db session_token s u day restNow restIso ht hh hmem htok huniq hiso
      humem huid huuniq
    have hfind : db.sessions.find? (fun s1 =>
        s1.session_token == session_token && s1.hardware_id == s.hardware_id &&
          Js.textLt (day ++ " " ++ restNow) s1.expires_at) = some s := by
      apply find_eq_of_unique _ _ _ hmem
      · simp [htok, hiso, textLt_day_quirk]
      · intro b hb hpb
        simp only [Bool.and_eq_true, beq_iff_eq] at hpb
        exact huniq b hb hpb.1.1
    have hufind : db.users.find? (fun u1 => u1.id == s.user_id) = some u := by
      apply find_eq_of_unique _ _ _ humem
      · simp [huid]
      · intro b hb hpb
        simp only [beq_iff_eq] at hpb
        exact huuniq b hb hpb
    simp [Sqlite.sVerifySession, ht, hh, hfind, hufind]

/-- Witness for C4: the session expiring at 10:00 UTC on 2025-03-10 is
rejected on the next day, while late the same evening — well after the
expiry instant — it still verifies. -/
theorem claim_c4_witness :
    Sqlite.sVerifySession dbSq "tok1" "HW1" "2025-03-11 09:00:00" =
      .fail 401 "Invalid or expired session" ∧
    Sqlite.sVerifySession dbSq "tok1" "HW1" "2025-03-10 23:59:59" =
      .ok "alice" "LC-0001" "2025-03-10T10:00:00.000Z" :=
  by
  constructor
  · exact claim_c4_session_expiry.1 dbSq "tok1" "HW1" "2025-03-11 09:00:00"
      (by decide) (by decide) (by decide)
  · exact claim_c4_session_expiry.2 dbSq "tok1" sessSq aliceSq
      "2025-03-10" "23:59:59" "10:00:00.000Z"
      (by decide) (by decide) (by decide) (by decide) (by decide) (by decide)
      (by decide) (by decide) (by decide)

/-- Counterexample to C4 as stated: the check time 11:00 UTC on 2025-03-10
is strictly after the session's expiry instant 10:00 UTC the same day (the
first conjunct compares the two instants in the common ISO format), yet
verification succeeds, because the query compares the stored ISO TEXT
against datetime('now')'s space-separated format and 'T' > ' '. -/
theorem claim_c4_counterexample :
    Js.textLt "2025-03-10T10:00:00.000Z" "2025-03-10T11:00:00.000Z" = true ∧
    Sqlite.sVerifySession dbSq "tok1" "HW1" "2025-03-10 11:00:00" =
      .ok "alice" "LC-0001" "2025-03-10T10:00:00.000Z" := by
  decide

/-- C5 (amended): in the SQLite variant, a session token presented with any
fingerprint other than the one every matching session was issued for is
rejected, and presented with the issuing fingerprint while the stored
expiry TEXT still tests greater than datetime('now') — which holds at any
point before the expiry instant — it succeeds and returns the owning
account. -/
theorem claim_c5_session_device_binding :
    (∀ db : Sqlite.SDB, ∀ session_token hardware_id nowStr : String,
      session_token ≠ "" → hardware_id ≠ "" →
      (∀ s ∈ db.sessions, s.session_token = session_token →
        s.hardware_id ≠ hardware_id) →
      Sqlite.sVerifySession db session_token hardware_id nowStr =
        .fail 401 "Invalid or expired session") ∧
    (∀ db : Sqlite.SDB, ∀ session_token nowStr : String,
      ∀ s : Sqlite.SSession, ∀ u : Sqlite.SUser,
      session_token ≠ "" → s.hardware_id ≠ "" →
      s ∈ db.sessions → s.session_token = session_token →
      (∀ s1 ∈ db.sessions, s1.session_token = session_token → s1 = s) →
      Js.textLt nowStr s.expires_at = true →
      u ∈ db.users → u.id = s.user_id →
      (∀ u1 ∈ db.users, u1.id = s.user_id → u1 = u) →
      Sqlite.sVerifySession db session_token s.hardware_id nowStr =
        .ok u.username u.license_code s.expires_at) := by
  constructor
  · intro db session_token hardware_id nowStr ht hh hdev
    have hnone : db.sessions.find? (fun s =>
        s.session_token == session_token && s.hardware_id == hardware_id &&
          Js.textLt nowStr s.expires_at) = none := by
      rw [List.find?_eq_none]
      intro s hs hcontra
      simp only [Bool.and_eq_true, beq_iff_eq] at hcontra
      exact hdev s hs hcontra.1.1 hcontra.1.2
    simp [Sqlite.sVerifySession, ht, hh, hnone]
  · intro db session_token nowStr s u ht hh hmem htok huniq hexp humem huid huuniq
    have hfind : db.sessions.find? (fun s1 =>
        s1.session_token == session_token && s1.hardware_id == s.hardware_id &&
          Js.textLt nowStr s1.expires_at) = some s := by
      apply find_eq_of_unique _ _ _ hmem
      · simp [htok, hexp]
      · intro b hb hpb
        simp only [Bool.and_eq_true, beq_iff_eq] at hpb
        exact huniq b hb hpb.1.1
    have hufind : db.users.find? (fun u1 => u1.id == s.user_id) = some u := by
      apply find_eq_of_unique _ _ _ humem
      · simp [huid]
      · intro b hb hpb
        simp only [beq_iff_eq] at hpb
        exact huuniq b hb hpb
    simp [Sqlite.sVerifySession, ht, hh, hfind, hufind]

/-- Witness for C5: the session for (alice, HW1) rejects HW2 but verifies
from HW1 the day before expiry, returning alice. -/
theorem claim_c5_witness :
    Sqlite.sVerifySession dbSq "tok1" "HW2" "2025-03-09 09:00:00" =
      .fail 401 "Invalid or expired session" ∧
    Sqlite.sVerifySession dbSq "tok1" "HW1" "2025-03-09 09:00:00" =
      .ok "alice" "LC-0001" "2025-03-10T10:00:00.000Z" :=
  by
  constructor
  · exact claim_c5_session_device_binding.1 dbSq "tok1" "HW2" "2025-03-09 09:00:00"
      (by decide) (by decide) (by decide)
  · exact claim_c5_session_device_binding.2 dbSq "tok1" "2025-03-09 09:00:00"
      sessSq aliceSq (by decide) (by decide) (by decide) (by decide) (by decide)
      (by decide) (by decide) (by decide) (by decide)

/-- Counterexample to C5 as stated: in the flat-file variant the token
issued by a login from HW1 verifies successfully when presented from HW2,
another device registered to the same account, instead of always failing
with a DeviceMismatch error. -/
theorem claim_c5_counterexample :
    (FlatFile.login kdfX dbFF "alice" "secret1" "HW1" "tokA" 7).fst =
      .ok "tokA" "alice" "PSYSTUDIO-2024-FULL" "full" 2 ∧
    FlatFile.fVerifySession (FlatFile.login kdfX dbFF "alice" "secret1" "HW1" "tokA" 7).snd
      "alice" "tokA" "HW2" = .ok "alice" "full" := by
  decide

/-- A character absent from a list leaves the whole list before it. -/
theorem beforeChar_of_not_mem (sep : Char) (l : List Char) (h : ¬ sep ∈ l) :
    Js.beforeChar sep l = l := by
  induction l with
  | nil => rfl
  | cons c rest ih =>
    simp only [List.mem_cons, not_or] at h
    have hc : ¬ (c == sep) = true := by
      simp only [beq_iff_eq]
      exact fun e => h.1 e.symm
    simp [Js.beforeChar, hc, ih h.2]

/-- Splitting at the first separator after a separator-free prefix keeps
exactly that prefix. -/
theorem beforeChar_append (sep : Char) (l r : List Char) (h : ¬ sep ∈ l) :
    Js.beforeChar sep (l ++ sep :: r) = l := by
  induction l with
  | nil => simp [Js.beforeChar]
  | cons c rest ih =>
    simp only [List.mem_cons, not_or] at h
    have hc : ¬ (c == sep) = true := by
      simp only [beq_iff_eq]
      exact fun e => h.1 e.symm
    simp [Js.beforeChar, hc, ih h.2]

/-- Splitting at the first separator after a separator-free prefix keeps
exactly the suffix. -/
theorem afterChar_append (sep : Char) (l r : List Char) (h : ¬ sep ∈ l) :
    Js.afterChar sep (l ++ sep :: r) = some r := by
  induction l with
  | nil => simp [Js.afterChar]
  | cons c rest ih =>
    simp only [List.mem_cons, not_or] at h
    have hc : ¬ (c == sep) = true := by
      simp only [beq_iff_eq]
      exact fun e => h.1 e.symm
    simp [Js.afterChar, hc, ih h.2]

/-- The SQLite credential serializes as the salt, a colon, and the hash. -/
theorem sHashPassword_data (kdf : String → String → String) (password salt : String) :
    (Sqlite.sHashPassword kdf password salt).data =
      salt.data ++ ':' :: (kdf password salt).data := by
  have hcolon : (":" : String).data = [':'] := rfl
  show ((salt ++ ":") ++ kdf password salt).data = _
  rw [String.data_append, String.data_append, hcolon, List.append_assoc,
    List.singleton_append]

/-- C8: in the flat-file variant, verifying a password against the
credential derived from it with the stored salt always returns true, and
verifying against the credential of another password returns false whenever
the two derived hashes differ (the collision event, of negligible
probability for PBKDF2, is the hypothesis); in the SQLite variant, whose
credential embeds the salt as salt:hash, the same two properties hold
whenever the salt and the stored hash are colon-free — as the hex strings
the source draws always are. -/
theorem claim_c8_password_roundtrip :
    (∀ kdf : String → String → String, ∀ password salt : String,
      FlatFile.verifyPassword kdf password salt
        (FlatFile.hashPassword kdf password salt) = true) ∧
    (∀ kdf : String → String → String, ∀ p q salt : String,
      FlatFile.hashPassword kdf p salt ≠ FlatFile.hashPassword kdf q salt →
      FlatFile.verifyPassword kdf p salt (FlatFile.hashPassword kdf q salt) = false) ∧
    (∀ kdf : String → String → String, ∀ password salt : String,
      ¬ ':' ∈ salt.data → ¬ ':' ∈ (kdf password salt).data →
      Sqlite.sVerifyPassword kdf password
        (Sqlite.sHashPassword kdf password salt) = true) ∧
    (∀ kdf : String → String → String, ∀ p q salt : String,
      ¬ ':' ∈ salt.data → ¬ ':' ∈ (kdf q salt).data →
      kdf p salt ≠ kdf q salt →
      Sqlite.sVerifyPassword kdf p (Sqlite.sHashPassword kdf q salt) = false) := by
  refine ⟨?_, ?_, ?_, ?_⟩
  · intro kdf password salt
    simp [FlatFile.verifyPassword]
  · intro kdf p q salt h
    simp [FlatFile.verifyPassword, h]
  · intro kdf password salt hs hh
    simp only [Sqlite.sVerifyPassword]
    rw [sHashPassword_data, beforeChar_append _ _ _ hs, afterChar_append _ _ _ hs]
    show (String.mk (Js.beforeChar ':' (kdf password salt).data) ==
      kdf password (String.mk salt.data)) = true
    rw [beforeChar_of_not_mem _ _ hh]
    show (kdf password salt == kdf password salt) = true
    simp
  · intro kdf p q salt hs hh hne
    simp only [Sqlite.sVerifyPassword]
    rw [sHashPassword_data, beforeChar_append _ _ _ hs, afterChar_append _ _ _ hs]
    show (String.mk (Js.beforeChar ':' (kdf q salt).data) ==
      kdf p (String.mk salt.data)) = false
    rw [beforeChar_of_not_mem _ _ hh]
    show (kdf q salt == kdf p salt) = false
    exact beq_eq_false_iff_ne.mpr (Ne.symm hne)

/-- Witness for C8 at a concrete kdf and concrete passwords, in both
credential formats. -/
theorem claim_c8_witness :
    FlatFile.verifyPassword kdfX "secret1" "s0"
      (FlatFile.hashPassword kdfX "secret1" "s0") = true ∧
    FlatFile.verifyPassword kdfX "secret1" "s0"
      (FlatFile.hashPassword kdfX "secret2" "s0") = false ∧
    Sqlite.sVerifyPassword kdfX "secret1"
      (Sqlite.sHashPassword kdfX "secret1" "s0") = true ∧
    Sqlite.sVerifyPassword kdfX "secret1"
      (Sqlite.sHashPassword kdfX "secret2" "s0") = false :=
  ⟨claim_c8_password_roundtrip.1 kdfX "secret1" "s0",
   claim_c8_password_roundtrip.2.1 kdfX "secret1" "secret2" "s0" (by decide),
   claim_c8_password_roundtrip.2.2.1 kdfX "secret1" "s0" (by decide) (by decide),
   claim_c8_password_roundtrip.2.2.2 kdfX "secret1" "secret2" "s0"
     (by decide) (by decide) (by decide)⟩

/-- C10: the validate handler answers valid exactly for members of the static
security-code list, and both handlers are functions of the request body's
code alone (they consult no mutable state, so two requests with the same
code always get the same response). -/
theorem claim_c10_security_codes :
    (∀ r : Security.SecurityRequest,
      (Security.validate r).valid = true ↔ r.code ∈ Security.validSecurityCodes) ∧
    (∀ r r1 : Security.SecurityRequest, r.code = r1.code →
      Security.validate r = Security.validate r1 ∧
      Security.authenticate r = Security.authenticate r1) := by
  constructor
  · intro r
    simp [Security.validate, List.contains, List.elem_iff]
  · intro r r1 h
    exact ⟨by simp [Security.validate, h], by simp [Security.authenticate, h]⟩

/-- Witness for C10: a concrete listed code validates, and two requests
differing only outside the code field get identical responses. -/
theorem claim_c10_witness :
    (Security.validate ⟨"fpA", "ts1", "100PSY969666POWER001"⟩).valid = true ∧
    Security.authenticate ⟨"fpA", "ts1", "100PSY969666POWER001"⟩ =
      Security.authenticate ⟨"fpB", "ts2", "100PSY969666POWER001"⟩ :=
  ⟨(claim_c10_security_codes.1 ⟨"fpA", "ts1", "100PSY969666POWER001"⟩).mpr (by decide),
   (claim_c10_security_codes.2 ⟨"fpA", "ts1", "100PSY969666POWER001"⟩
      ⟨"fpB", "ts2", "100PSY969666POWER001"⟩ rfl).2⟩

/-- C9: the flat-file verify-session never reads the token, so its result is
the same for any two token values; in particular it succeeds for an
arbitrary token whenever the username exists and the presented fingerprint
is in that user's device list. -/
theorem claim_c9_token_ignored :
    (∀ db : FlatFile.DB, ∀ username t1 t2 hardwareID : String,
      FlatFile.fVerifySession db username t1 hardwareID =
        FlatFile.fVerifySession db username t2 hardwareID) ∧
    (∀ db : FlatFile.DB, ∀ username tok hardwareID : String,
      ∀ user : FlatFile.User, ∀ ds : List String,
      FlatFile.jsLookup db.users username = some user →
      user.devices = some ds → ds.contains hardwareID = true →
      FlatFile.fVerifySession db username tok hardwareID =
        .ok user.username (FlatFile.licenseType user.licenseCode)) := by
  constructor
  · intro db username t1 t2 hardwareID
    rfl
  · intro db username tok hardwareID user ds h1 h2 h3
    simp [FlatFile.fVerifySession, h1, h2, h3, List.contains, List.elem_iff] at h3 ⊢
    simp [h3]

/-- Witness for C9: with aliceFF stored, two unrelated tokens verify the
same, and a garbage token succeeds from her registered device HW2. -/
theorem claim_c9_witness :
    FlatFile.fVerifySession dbFF "alice" "deadbeef" "HW2" =
      FlatFile.fVerifySession dbFF "alice" "anything" "HW2" ∧
    FlatFile.fVerifySession dbFF "alice" "deadbeef" "HW2" = .ok "alice" "full" :=
  ⟨claim_c9_token_ignored.1 dbFF "alice" "deadbeef" "anything" "HW2",
   (claim_c9_token_ignored.2 dbFF "alice" "deadbeef" "HW2" aliceFF ["HW1", "HW2"]
     (by decide) (by decide) (by decide)).trans (by decide)⟩

/-- C6: in both backends, a login with an unknown username and a login with a
known username whose password does not verify return the same error value,
so the caller cannot tell whether the username exists.  The flat-file login
answers 401 Invalid username or password in both runs; the SQLite login
answers 401 Invalid credentials in both runs (also when the stored hash is
NULL or empty). -/
theorem claim_c6_uniform_credential_error :
    (∀ kdf : String → String → String, ∀ db : FlatFile.DB,
      ∀ username password hardwareID tok : String, ∀ now : Nat,
      username ≠ "" → password ≠ "" → hardwareID ≠ "" →
      FlatFile.jsLookup db.users username = none →
      (FlatFile.login kdf db username password hardwareID tok now).fst =
        .fail 401 "Invalid username or password" none) ∧
    (∀ kdf : String → String → String, ∀ db : FlatFile.DB,
      ∀ username password hardwareID tok : String, ∀ now : Nat,
      ∀ user : FlatFile.User,
      username ≠ "" → password ≠ "" → hardwareID ≠ "" →
      FlatFile.jsLookup db.users username = some user →
      FlatFile.verifyPassword kdf password user.salt user.passwordHash = false →
      (FlatFile.login kdf db username password hardwareID tok now).fst =
        .fail 401 "Invalid username or password" none) ∧
    (∀ kdf : String → String → String, ∀ db : Sqlite.SDB,
      ∀ username password hardware_id tok expIso : String, ∀ devId now : Nat,
      username ≠ "" → password ≠ "" → hardware_id ≠ "" →
      db.users.find? (fun u => u.username == username) = none →
      (Sqlite.sLogin kdf db username password hardware_id tok expIso devId now).fst =
        .fail 401 "Invalid credentials" none) ∧
    (∀ kdf : String → String → String, ∀ db : Sqlite.SDB,
      ∀ username password hardware_id tok expIso : String, ∀ devId now : Nat,
      ∀ user : Sqlite.SUser, ∀ ph : String,
      username ≠ "" → password ≠ "" → hardware_id ≠ "" →
      db.users.find? (fun u => u.username == username) = some user →
      user.password_hash = some ph →
      Sqlite.sVerifyPassword kdf password ph = false →
      (Sqlite.sLogin kdf db username password hardware_id tok expIso devId now).fst =
        .fail 401 "Invalid credentials" none) := by
  refine ⟨?_, ?_, ?_, ?_⟩
  · intro kdf db username password hardwareID tok now hu hp hh hl
    simp [FlatFile.login, hu, hp, hh, hl]
  · intro kdf db username password hardwareID tok now user hu hp hh hl hv
    simp [FlatFile.login, hu, hp, hh, hl, hv]
  · intro kdf db username password hardware_id tok expIso devId now hu hp hh hl
    simp [Sqlite.sLogin, hu, hp, hh, hl]
  · intro kdf db username password hardware_id tok expIso devId now user ph hu hp hh hl hph hv
    by_cases hempty : ph = ""
    · simp [Sqlite.sLogin, hu, hp, hh, hl, hph, hempty]
    · simp [Sqlite.sLogin, hu, hp, hh, hl, hph, hempty, hv]

/-- Witness for C6: against the concrete stores, an unknown username and a
wrong password for alice produce the identical error in each variant. -/
theorem claim_c6_witness :
    (FlatFile.login kdfX dbFF "mallory" "secret1" "HW1" "t0" 5).fst =
      .fail 401 "Invalid username or password" none ∧
    (FlatFile.login kdfX dbFF "alice" "wrongpw" "HW1" "t0" 5).fst =
      .fail 401 "Invalid username or password" none ∧
    (Sqlite.sLogin kdfX dbSq "mallory" "secret1" "HW1" "t0" "e0" 9 5).fst =
      .fail 401 "Invalid credentials" none ∧
    (Sqlite.sLogin kdfX dbSq "alice" "wrongpw" "HW1" "t0" "e0" 9 5).fst =
      .fail 401 "Invalid credentials" none :=
  ⟨claim_c6_uniform_credential_error.1 kdfX dbFF "mallory" "secret1" "HW1" "t0" 5
     (by decide) (by decide) (by decide) (by decide),
   claim_c6_uniform_credential_error.2.1 kdfX dbFF "alice" "wrongpw" "HW1" "t0" 5 aliceFF
     (by decide) (by decide) (by decide) (by decide) (by decide),
   claim_c6_uniform_credential_error.2.2.1 kdfX dbSq "mallory" "secret1" "HW1" "t0" "e0" 9 5
     (by decide) (by decide) (by decide) (by decide),
   claim_c6_uniform_credential_error.2.2.2 kdfX dbSq "alice" "wrongpw" "HW1" "t0" "e0" 9 5
     aliceSq (Sqlite.sHashPassword kdfX "secret1" "s0")
     (by decide) (by decide) (by decide) (by decide) (by decide) (by decide)⟩

/-- An element of a JS property write is either the written value or one of
the original entries. -/
theorem mem_jsSet {α : Type} (l : List (String × α)) (k : String) (v : α)
    (p : String × α) (h : p ∈ FlatFile.jsSet l k v) : p.snd = v ∨ p ∈ l := by
  unfold FlatFile.jsSet at h
  split at h
  · rcases List.mem_map.mp h with ⟨q, hq, hpq⟩
    by_cases hk : (q.fst == k) = true
    · rw [if_pos hk] at hpq
      left
      rw [← hpq]
  
    · rw [if_neg hk] at hpq
      right
      rw [← hpq]
      exact hq
  · rcases List.mem_append.mp h with h1 | h1
    · right
      exact h1
    · left
      have h2 : p = (k, v) := by simpa using h1
      rw [h2]

/-- A successful JS property read returns the value of some stored entry. -/
theorem jsLookup_mem {α : Type} (l : List (String × α)) (k : String) (v : α)
    (h : FlatFile.jsLookup l k = some v) : ∃ k1, (k1, v) ∈ l := by
  unfold FlatFile.jsLookup at h
  cases hf : l.find? (fun p => p.fst == k) with
  | none => rw [hf] at h; cases h
  | some q =>
    rw [hf] at h
    have hm := List.mem_of_find?_eq_some hf
    refine ⟨q.fst, ?_⟩
    have h2 : q.snd = v := by simpa using h
    rw [← h2, Prod.mk.eta]
    exact hm

/-- Finding the key in a list whose matching entries were overwritten
returns the overwriting value whenever the key was found before. -/
theorem find_set_present {α : Type} (l : List (String × α)) (k : String) (v : α) :
    (l.map (fun p => if p.fst == k then (k, v) else p)).find? (fun p => p.fst == k) =
      (l.find? (fun p => p.fst == k)).map (fun _ => (k, v)) := by
  induction l with
  | nil => rfl
  | cons x xs ih =>
    by_cases hx : (x.fst == k) = true
    · have hx2 : x.fst = k := by simpa using hx
      simp [List.find?_cons, hx2]
    · have hx2 : ¬ x.fst = k := by simpa using hx
      have hb : (x.fst == k) = false := beq_eq_false_iff_ne.mpr hx2
      rw [List.map_cons, if_neg hx, List.find?_cons, List.find?_cons, hb]
      exact ih

/-- Reading a key immediately after writing it returns the written value. -/
theorem jsLookup_jsSet {α : Type} (l : List (String × α)) (k : String) (v : α) :
    FlatFile.jsLookup (FlatFile.jsSet l k v) k = some v := by
  unfold FlatFile.jsLookup FlatFile.jsSet
  by_cases h : (l.find? (fun p => p.fst == k)).isSome
  · rw [if_pos h, find_set_present]
    rcases Option.isSome_iff_exists.mp h with ⟨q, hq⟩
    rw [hq]
    rfl
  · rw [if_neg h, List.find?_append]
    have hnone : l.find? (fun p => p.fst == k) = none :=
      Option.not_isSome_iff_eq_none.mp h
    rw [hnone]
    simp [List.find?]

/-- One login, whatever its outcome, preserves the device-quota invariant. -/
theorem login_preserves_inv (kdf : String → String → String) (db : FlatFile.DB)
    (username password hardwareID tok : String) (now : Nat)
    (hinv : FlatFile.DeviceInv db) :
    FlatFile.DeviceInv (FlatFile.login kdf db username password hardwareID tok now).snd := by
  unfold FlatFile.login
  by_cases h0 : (username = "" ∨ password = "" ∨ hardwareID = "")
  · rw [if_pos h0]
    exact hinv
  rw [if_neg h0]
  cases hfind : FlatFile.jsLookup db.users username with
  | none => exact hinv
  | some user =>
    dsimp only
    by_cases hv : FlatFile.verifyPassword kdf password user.salt user.passwordHash = false
    · rw [if_pos hv]
      exact hinv
    rw [if_neg hv]
    have huser : FlatFile.devLen user ≤ 3 := by
      rcases jsLookup_mem db.users username user hfind with ⟨k1, hk1⟩
      exact hinv (k1, user) hk1
    cases hdev : user.devices with
    | none =>
      dsimp only
      intro q hq
      rcases mem_jsSet db.users username _ q hq with hqv | hql
      · rw [hqv]
        show ([hardwareID] : List String).length ≤ 3
        simp
      · exact hinv q hql
    | some ds =>
      dsimp only
      have hd : FlatFile.devLen user = ds.length := by
        simp [FlatFile.devLen, hdev]
      by_cases hmem : ds.contains hardwareID
      · rw [if_pos hmem]
        intro q hq
        rcases mem_jsSet db.users username _ q hq with hqv | hql
        · rw [hqv]
          show ds.length ≤ 3
          omega
        · exact hinv q hql
      · rw [if_neg hmem]
        by_cases hlen : 3 ≤ ds.length
        · rw [if_pos hlen]
          exact hinv
        · rw [if_neg hlen]
          intro q hq
          rcases mem_jsSet db.users username _ q hq with hqv | hql
          · rw [hqv]
            show (ds ++ [hardwareID]).length ≤ 3
            simp only [List.length_append, List.length_cons, List.length_nil]
            omega
          · exact hinv q hql

/-- Any sequence of logins preserves the device-quota invariant. -/
theorem runLogins_inv (kdf : String → String → String) (reqs : List FlatFile.LoginReq) :
    ∀ db : FlatFile.DB, FlatFile.DeviceInv db →
      FlatFile.DeviceInv (FlatFile.runLogins kdf db reqs) := by
  induction reqs with
  | nil => intro db h; exact h
  | cons r rs ih =>
    intro db h
    exact ih _ (login_preserves_inv kdf db r.username r.password r.hardwareID
      r.token r.now h)

/-- The distinct-fingerprint count is bounded by the entry count. -/
theorem distinct_le_devLen (u : FlatFile.User) :
    FlatFile.distinctDevices u ≤ FlatFile.devLen u := by
  unfold FlatFile.distinctDevices FlatFile.devLen
  cases u.devices with
  | none => simp
  | some ds => simpa using (List.dedup_sublist ds).length_le

/-- Mapping a device-row update that preserves user_id does not change how
many rows an account owns. -/
theorem length_filter_userid_map (g : Sqlite.SDevice → Sqlite.SDevice)
    (hg : ∀ d, (g d).user_id = d.user_id) (l : List Sqlite.SDevice) (uid : Nat) :
    ((l.map g).filter (fun d => d.user_id == uid)).length =
      (l.filter (fun d => d.user_id == uid)).length := by
  induction l with
  | nil => rfl
  | cons d rest ih =>
    simp only [List.map_cons, List.filter_cons]
    rw [hg d]
    by_cases h : (d.user_id == uid) = true
    · simp [h, ih]
    · simp [h, ih]

/-- One SQLite login, whatever its outcome, preserves the device-quota
invariant. -/
theorem sLogin_preserves_inv (kdf : String → String → String) (db : Sqlite.SDB)
    (username password hardware_id tok expIso : String) (devId now : Nat)
    (hinv : Sqlite.SDeviceInv db) :
    Sqlite.SDeviceInv
      (Sqlite.sLogin kdf db username password hardware_id tok expIso devId now).snd := by
  unfold Sqlite.sLogin
  by_cases h0 : (username = "" ∨ password = "" ∨ hardware_id = "")
  · rw [if_pos h0]
    exact hinv
  rw [if_neg h0]
  cases hfu : db.users.find? (fun u => u.username == username) with
  | none => exact hinv
  | some user =>
    dsimp only
    cases hph : user.password_hash with
    | none => exact hinv
    | some ph =>
      dsimp only
      by_cases hv : (ph = "" ∨ Sqlite.sVerifyPassword kdf password ph = false)
      · rw [if_pos hv]
        exact hinv
      rw [if_neg hv]
      by_cases hact : user.is_activated = 0
      · rw [if_pos hact]
        exact hinv
      rw [if_neg hact]
      cases hfd : (db.devices.filter (fun d => d.user_id == user.id)).find?
          (fun d => d.hardware_id == hardware_id) with
      | none =>
        dsimp only
        by_cases hlen : 3 ≤ (db.devices.filter (fun d => d.user_id == user.id)).length
        · rw [if_pos hlen]
          exact hinv
        · rw [if_neg hlen]
          intro u hu
          rcases List.mem_map.mp hu with ⟨u0, hu0, hfu2⟩
          have hid2 : u.id = u0.id := by
            rw [← hfu2]
            by_cases hc : (u0.id == user.id) = true <;> simp [hc]
          rw [hid2]
          simp only [Sqlite.sDevCount, Sqlite.userDevices, List.filter_append,
            List.length_append]
          by_cases hc2 : (user.id == u0.id) = true
          · rw [← (beq_iff_eq.mp hc2)]
            simp only [List.filter_cons, List.filter_nil]
            simp
            omega
          · simp only [List.filter_cons, List.filter_nil]
            simp [hc2]
            exact hinv u0 hu0
      | some existingDevice =>
        dsimp only
        intro u hu
        rcases List.mem_map.mp hu with ⟨u0, hu0, hfu2⟩
        have hid2 : u.id = u0.id := by
          rw [← hfu2]
          by_cases hc : (u0.id == user.id) = true <;> simp [hc]
        rw [hid2]
        simp only [Sqlite.sDevCount, Sqlite.userDevices]
        rw [length_filter_userid_map
          (fun d => if (d.id == existingDevice.id) = true
            then { d with last_seen := now } else d)
          (fun d => by by_cases hc : (d.id == existingDevice.id) = true <;> simp [hc])
          db.devices u0.id]
        exact hinv u0 hu0

/-- Any sequence of SQLite logins preserves the device-quota invariant. -/
theorem sRunLogins_inv (kdf : String → String → String)
    (reqs : List Sqlite.SLoginReq) :
    ∀ db : Sqlite.SDB, Sqlite.SDeviceInv db →
      Sqlite.SDeviceInv (Sqlite.sRunLogins kdf db reqs) := by
  induction reqs with
  | nil => intro db h; exact h
  | cons r rs ih =>
    intro db h
    exact ih _ (sLogin_preserves_inv kdf db r.username r.password r.hardware_id
      r.token r.expiresIso r.devId r.now h)

/-- The distinct-fingerprint count of an account is bounded by its row
count. -/
theorem sDistinct_le_sDevCount (db : Sqlite.SDB) (uid : Nat) :
    Sqlite.sDistinctDevices db uid ≤ Sqlite.sDevCount db uid := by
  unfold Sqlite.sDistinctDevices Sqlite.sDevCount
  have h1 := (List.dedup_sublist ((Sqlite.userDevices db uid).map
    (fun d => d.hardware_id))).length_le
  simpa using h1

/-- C1: in both backends, starting from any database within the
three-device quota, any sequence of logins keeps every account at no more
than 3 distinct registered fingerprints; a login from an already-registered
fingerprint succeeds with the device set untouched and with no quota check
(whatever the current count); a login from a new fingerprint when 3 devices
are registered fails with the DeviceLimitExceeded error and changes
nothing; and a login from a new fingerprint under the quota registers it.
Conjuncts 1-4 settle the flat-file variant, conjuncts 5-8 the SQLite
variant. -/
theorem claim_c1_device_quota :
    (∀ kdf : String → String → String, ∀ db : FlatFile.DB,
      ∀ reqs : List FlatFile.LoginReq,
      FlatFile.DeviceInv db →
      ∀ p ∈ (FlatFile.runLogins kdf db reqs).users,
        FlatFile.distinctDevices p.snd ≤ 3) ∧
    (∀ kdf : String → String → String, ∀ db : FlatFile.DB,
      ∀ username password hardwareID tok : String, ∀ now : Nat,
      ∀ user : FlatFile.User, ∀ ds : List String,
      username ≠ "" → password ≠ "" → hardwareID ≠ "" →
      FlatFile.jsLookup db.users username = some user →
      FlatFile.verifyPassword kdf password user.salt user.passwordHash = true →
      user.devices = some ds → ds.contains hardwareID = true →
      (FlatFile.login kdf db username password hardwareID tok now).fst =
        .ok tok user.username user.licenseCode
          (FlatFile.licenseType user.licenseCode) ds.length ∧
      FlatFile.jsLookup
          (FlatFile.login kdf db username password hardwareID tok now).snd.users
          username =
        some { user with lastLogin := now }) ∧
    (∀ kdf : String → String → String, ∀ db : FlatFile.DB,
      ∀ username password hardwareID tok : String, ∀ now : Nat,
      ∀ user : FlatFile.User, ∀ ds : List String,
      username ≠ "" → password ≠ "" → hardwareID ≠ "" →
      FlatFile.jsLookup db.users username = some user →
      FlatFile.verifyPassword kdf password user.salt user.passwordHash = true →
      user.devices = some ds → ds.contains hardwareID = false → ds.length = 3 →
      (FlatFile.login kdf db username password hardwareID tok now).fst =
        .fail 403 "Maximum device limit reached (3 devices)" (some 3) ∧
      (FlatFile.login kdf db username password hardwareID tok now).snd = db) ∧
    (∀ kdf : String → String → String, ∀ db : FlatFile.DB,
      ∀ username password hardwareID tok : String, ∀ now : Nat,
      ∀ user : FlatFile.User, ∀ ds : List String,
      username ≠ "" → password ≠ "" → hardwareID ≠ "" →
      FlatFile.jsLookup db.users username = some user →
      FlatFile.verifyPassword kdf password user.salt user.passwordHash = true →
      user.devices = some ds → ds.contains hardwareID = false → ds.length < 3 →
      (FlatFile.login kdf db username password hardwareID tok now).fst =
        .ok tok user.username user.licenseCode
          (FlatFile.licenseType user.licenseCode) (ds.length + 1) ∧
      FlatFile.jsLookup
          (FlatFile.login kdf db username password hardwareID tok now).snd.users
          username =
        some { user with devices := some (ds ++ [hardwareID]), lastLogin := now }) ∧
    (∀ kdf : String → String → String, ∀ db : Sqlite.SDB,
      ∀ reqs : List Sqlite.SLoginReq,
      Sqlite.SDeviceInv db →
      ∀ u ∈ (Sqlite.sRunLogins kdf db reqs).users,
        Sqlite.sDistinctDevices (Sqlite.sRunLogins kdf db reqs) u.id ≤ 3) ∧
    (∀ kdf : String → String → String, ∀ db : Sqlite.SDB,
      ∀ username password hardware_id tok expIso : String, ∀ devId now : Nat,
      ∀ user : Sqlite.SUser, ∀ ph : String, ∀ existingDevice : Sqlite.SDevice,
      username ≠ "" → password ≠ "" → hardware_id ≠ "" →
      db.users.find? (fun u => u.username == username) = some user →
      user.password_hash = some ph → ph ≠ "" →
      Sqlite.sVerifyPassword kdf password ph = true →
      user.is_activated ≠ 0 →
      (db.devices.filter (fun d => d.user_id == user.id)).find?
        (fun d => d.hardware_id == hardware_id) = some existingDevice →
      (Sqlite.sLogin kdf db username password hardware_id tok expIso devId now).fst =
        .ok tok expIso user.username
          (db.devices.filter (fun d => d.user_id == user.id)).length false ∧
      (Sqlite.sLogin kdf db username password hardware_id tok expIso devId
          now).snd.devices.map (fun d => (d.user_id, d.hardware_id)) =
        db.devices.map (fun d => (d.user_id, d.hardware_id))) ∧
    (∀ kdf : String → String → String, ∀ db : Sqlite.SDB,
      ∀ username password hardware_id tok expIso : String, ∀ devId now : Nat,
      ∀ user : Sqlite.SUser, ∀ ph : String,
      username ≠ "" → password ≠ "" → hardware_id ≠ "" →
      db.users.find? (fun u => u.username == username) = some user →
      user.password_hash = some ph → ph ≠ "" →
      Sqlite.sVerifyPassword kdf password ph = true →
      user.is_activated ≠ 0 →
      (db.devices.filter (fun d => d.user_id == user.id)).find?
        (fun d => d.hardware_id == hardware_id) = none →
      (db.devices.filter (fun d => d.user_id == user.id)).length = 3 →
      (Sqlite.sLogin kdf db username password hardware_id tok expIso devId now).fst =
        .fail 403
          "Maximum device limit reached (3 devices). Please deactivate a device first."
          (some 3) ∧
      (Sqlite.sLogin kdf db username password hardware_id tok expIso devId now).snd =
        db) ∧
    (∀ kdf : String → String → String, ∀ db : Sqlite.SDB,
      ∀ username password hardware_id tok expIso : String, ∀ devId now : Nat,
      ∀ user : Sqlite.SUser, ∀ ph : String,
      username ≠ "" → password ≠ "" → hardware_id ≠ "" →
      db.users.find? (fun u => u.username == username) = some user →
      user.password_hash = some ph → ph ≠ "" →
      Sqlite.sVerifyPassword kdf password ph = true →
      user.is_activated ≠ 0 →
      (db.devices.filter (fun d => d.user_id == user.id)).find?
        (fun d => d.hardware_id == hardware_id) = none →
      (db.devices.filter (fun d => d.user_id == user.id)).length < 3 →
      (Sqlite.sLogin kdf db username password hardware_id tok expIso devId now).fst =
        .ok tok expIso user.username
          ((db.devices.filter (fun d => d.user_id == user.id)).length + 1) true ∧
      (Sqlite.sLogin kdf db username password hardware_id tok expIso devId
          now).snd.devices =
        db.devices ++
          [{ id := devId, user_id := user.id, hardware_id := hardware_id,
             device_name := "Device " ++ toString
               ((db.devices.filter (fun d => d.user_id == user.id)).length + 1),
             first_seen := now, last_seen := now }]) := by
  refine ⟨?_, ?_, ?_, ?_, ?_, ?_, ?_, ?_⟩
  · intro kdf db reqs hinv p hp
    exact le_trans (distinct_le_devLen p.snd) (runLogins_inv kdf reqs db hinv p hp)
  · intro kdf db username password hardwareID tok now user ds hu hp hh hl hv hdev hmem
    have h0 : ¬ (username = "" ∨ password = "" ∨ hardwareID = "") := by
      simp [hu, hp, hh]
    have hmem2 : hardwareID ∈ ds := List.mem_of_elem_eq_true hmem
    constructor
    · simp [FlatFile.login, h0, hl, hv, hdev, hmem, hmem2]
    · simp [FlatFile.login, h0, hl, hv, hdev, hmem, hmem2, jsLookup_jsSet]
  · intro kdf db username password hardwareID tok now user ds hu hp hh hl hv hdev
      hmem hlen
    have h0 : ¬ (username = "" ∨ password = "" ∨ hardwareID = "") := by
      simp [hu, hp, hh]
    have hmem2 : ¬ hardwareID ∈ ds := by simpa using hmem
    constructor
    · simp [FlatFile.login, h0, hl, hv, hdev, hmem, hmem2, hlen]
    · simp [FlatFile.login, h0, hl, hv, hdev, hmem, hmem2, hlen]
  · intro kdf db username password hardwareID tok now user ds hu hp hh hl hv hdev
      hmem hlen
    have h0 : ¬ (username = "" ∨ password = "" ∨ hardwareID = "") := by
      simp [hu, hp, hh]
    have hmem2 : ¬ hardwareID ∈ ds := by simpa using hmem
    have hlen2 : ¬ 3 ≤ ds.length := by omega
    constructor
    · simp [FlatFile.login, h0, hl, hv, hdev, hmem, hmem2, hlen2]
    · simp [FlatFile.login, h0, hl, hv, hdev, hmem, hmem2, hlen2, jsLookup_jsSet]
  · intro kdf db reqs hinv u hu
    exact le_trans (sDistinct_le_sDevCount _ _) (sRunLogins_inv kdf reqs db hinv u hu)
  · intro kdf db username password hardware_id tok expIso devId now user ph
      existingDevice hu hp hh hl hph hpne hv hact hfd
    have h0 : ¬ (username = "" ∨ password = "" ∨ hardware_id = "") := by
      simp [hu, hp, hh]
    have hv2 : ¬ (ph = "" ∨ Sqlite.sVerifyPassword kdf password ph = false) := by
      simp [hpne, hv]
    constructor
    · simp [Sqlite.sLogin, h0, hl, hph, hv2, hact, hfd]
    · rw [show (Sqlite.sLogin kdf db username password hardware_id tok expIso devId
          now).snd.devices =
          db.devices.map (fun d => if (d.id == existingDevice.id) = true
            then { d with last_seen := now } else d) from by
        simp [Sqlite.sLogin, h0, hl, hph, hv2, hact, hfd]]
      rw [List.map_map]
      apply List.map_congr_left
      intro d hd
      by_cases hc : d.id = existingDevice.id
      · simp [hc]
      · simp [hc]
  · intro kdf db username password hardware_id tok expIso devId now user ph
      hu hp hh hl hph hpne hv hact hfd hlen
    have h0 : ¬ (username = "" ∨ password = "" ∨ hardware_id = "") := by
      simp [hu, hp, hh]
    have hv2 : ¬ (ph = "" ∨ Sqlite.sVerifyPassword kdf password ph = false) := by
      simp [hpne, hv]
    constructor
    · simp [Sqlite.sLogin, h0, hl, hph, hv2, hact, hfd, hlen]
    · simp [Sqlite.sLogin, h0, hl, hph, hv2, hact, hfd, hlen]
  · intro kdf db username password hardware_id tok expIso devId now user ph
      hu hp hh hl hph hpne hv hact hfd hlen
    have h0 : ¬ (username = "" ∨ password = "" ∨ hardware_id = "") := by
      simp [hu, hp, hh]
    have hv2 : ¬ (ph = "" ∨ Sqlite.sVerifyPassword kdf password ph = false) := by
      simp [hpne, hv]
    have hlen2 : ¬ 3 ≤ (db.devices.filter (fun d => d.user_id == user.id)).length := by
      omega
    constructor
    · simp [Sqlite.sLogin, h0, hl, hph, hv2, hact, hfd, hlen2]
    · simp [Sqlite.sLogin, h0, hl, hph, hv2, hact, hfd, hlen2]

/-- Witness for C1 in both variants: after alice registers her devices the
distinct-device counts stay bounded; repeat logins from a registered device
succeed at the current count with the device set untouched; a fourth
fingerprint at the quota is refused with the device-limit error and no
state change; and a fresh fingerprint under the quota is registered. -/
theorem claim_c1_witness :
    FlatFile.distinctDevices aliceFF3 ≤ 3 ∧
    (FlatFile.login kdfX dbFF "alice" "secret1" "HW2" "t5" 5).fst =
      .ok "t5" "alice" "PSYSTUDIO-2024-FULL" "full" 2 ∧
    (FlatFile.login kdfX dbFF3 "alice" "secret1" "HW4" "t6" 6).fst =
      .fail 403 "Maximum device limit reached (3 devices)" (some 3) ∧
    (FlatFile.login kdfX dbFF3 "alice" "secret1" "HW4" "t6" 6).snd = dbFF3 ∧
    (FlatFile.login kdfX dbFF "alice" "secret1" "HW3" "t7" 7).fst =
      .ok "t7" "alice" "PSYSTUDIO-2024-FULL" "full" 3 ∧
    Sqlite.sDistinctDevices (Sqlite.sRunLogins kdfX dbSq reqsSq) 1 ≤ 3 ∧
    (Sqlite.sLogin kdfX dbSq "alice" "secret1" "HW1" "t8" "e8" 9 70).fst =
      .ok "t8" "e8" "alice" 1 false ∧
    (Sqlite.sLogin kdfX dbSq "alice" "secret1" "HW1" "t8" "e8" 9 70).snd.devices.map
        (fun d => (d.user_id, d.hardware_id)) = [(1, "HW1")] ∧
    (Sqlite.sLogin kdfX dbSq3 "alice" "secret1" "HW4" "t9" "e9" 4 80).fst =
      .fail 403
        "Maximum device limit reached (3 devices). Please deactivate a device first."
        (some 3) ∧
    (Sqlite.sLogin kdfX dbSq3 "alice" "secret1" "HW4" "t9" "e9" 4 80).snd = dbSq3 ∧
    (Sqlite.sLogin kdfX dbSq "alice" "secret1" "HW2" "t7" "e7" 2 90).fst =
      .ok "t7" "e7" "alice" 2 true ∧
    (Sqlite.sLogin kdfX dbSq "alice" "secret1" "HW2" "t7" "e7" 2 90).snd.devices =
      dbSq.devices ++
        [{ id := 2, user_id := 1, hardware_id := "HW2", device_name := "Device 2",
           first_seen := 90, last_seen := 90 }] := by
  have hlim := claim_c1_device_quota.2.2.1 kdfX dbFF3 "alice" "secret1" "HW4" "t6" 6
    { aliceFF with devices := some ["HW1", "HW2", "HW3"] } ["HW1", "HW2", "HW3"]
    (by decide) (by decide) (by decide) (by decide) (by decide) (by decide)
    (by decide) (by decide)
  have hsex := claim_c1_device_quota.2.2.2.2.2.1 kdfX dbSq "alice" "secret1" "HW1"
    "t8" "e8" 9 70 aliceSq (Sqlite.sHashPassword kdfX "secret1" "s0")
    { id := 1, user_id := 1, hardware_id := "HW1", device_name := "Device 1",
      first_seen := 0, last_seen := 0 }
    (by decide) (by decide) (by decide) (by decide) (by decide) (by decide)
    (by decide) (by decide) (by decide)
  have hslim := claim_c1_device_quota.2.2.2.2.2.2.1 kdfX dbSq3 "alice" "secret1"
    "HW4" "t9" "e9" 4 80 aliceSq (Sqlite.sHashPassword kdfX "secret1" "s0")
    (by decide) (by decide) (by decide) (by decide) (by decide) (by decide)
    (by decide) (by decide) (by decide) (by decide)
  have hsreg := claim_c1_device_quota.2.2.2.2.2.2.2 kdfX dbSq "alice" "secret1"
    "HW2" "t7" "e7" 2 90 aliceSq (Sqlite.sHashPassword kdfX "secret1" "s0")
    (by decide) (by decide) (by decide) (by decide) (by decide) (by decide)
    (by decide) (by decide) (by decide) (by decide)
  refine ⟨?_, ?_, hlim.1, hlim.2, ?_, ?_, hsex.1.trans (by decide),
    hsex.2.trans (by decide), hslim.1, hslim.2, hsreg.1.trans (by decide),
    hsreg.2.trans (by decide)⟩
  · exact claim_c1_device_quota.1 kdfX dbFF reqsFF
      (by decide : ∀ p ∈ dbFF.users, FlatFile.devLen p.snd ≤ 3)
      ("alice", aliceFF3) (by decide)
  · exact (claim_c1_device_quota.2.1 kdfX dbFF "alice" "secret1" "HW2" "t5" 5 aliceFF
      ["HW1", "HW2"] (by decide) (by decide) (by decide) (by decide) (by decide)
      (by decide) (by decide)).1.trans (by decide)
  · exact (claim_c1_device_quota.2.2.2.1 kdfX dbFF "alice" "secret1" "HW3" "t7" 7
      aliceFF ["HW1", "HW2"] (by decide) (by decide) (by decide) (by decide)
      (by decide) (by decide) (by decide) (by decide)).1.trans (by decide)
  · exact claim_c1_device_quota.2.2.2.2.1 kdfX dbSq reqsSq
      (by decide : ∀ u ∈ dbSq.users, Sqlite.sDevCount dbSq u.id ≤ 3)
      { aliceSq with last_login := some 60 } (by decide)
